import Mathlib

/-!
Shallow embedding of the AWA5.0 interpreter in `src/awa5.js` (classes
`Bubble`, `Abysser`, `Arith`, `Comparator`, `InOut`, the `parser`
function and the `interpreter` dispatch loop), together with theorems
settling the specification claims about it.

Modelling conventions, used throughout:
* JavaScript numbers are modelled as `Int`.  All arithmetic the program
  performs on reachable values is exact integer arithmetic well inside
  the double-precision safe range, and the only bit operations
  (`token >>> 0`, `value << 1`) are modelled with their exact
  mathematical meaning (`emod 2 ^ 32`, `* 2`).
* The interpreter's `trace` array ("execution stack trace") is not
  modelled: it is diagnostic only and has no effect on program
  semantics.
* Exceptions are modelled by error-carrying results.  Error messages
  are elided; errors are distinguished by their JavaScript class.
* The pluggable input reader / output writer and the JavaScript string
  builtins `parseInt` and `Number` are external collaborators; they are
  parameters (`JsEnv`) of the model, so theorems quantify over them.
-/

/-- A JavaScript error, identified by its class.  `opcodeError` is the
source's `OpcodeError`, `limitError` its `LimitError`; the others are
the builtin `SyntaxError`, `RangeError`, `TypeError` and
`ReferenceError` that the source can raise. -/
inductive JsErr where
  | syntaxError
  | opcodeError
  | limitError
  | rangeError
  | typeError
  | referenceError
deriving Repr, DecidableEq

/-- A JavaScript value as it can appear inside a bubble's backing or as
the result of `Bubble.value()`: a number, a string (single characters
produced by `InOut.read`), an array (produced by the non-spread
`new Bubble(array)` calls in `Arith`), `NaN`, or `undefined`. -/
inductive JSVal where
  | num : Int → JSVal
  | str : String → JSVal
  | arr : List JSVal → JSVal
  | nan : JSVal
  | undef : JSVal
deriving Repr

mutual
/-- JavaScript string conversion of a value (`toString` as used by
template literals and array joins). -/
def jsToStr : JSVal → String
  | .num n => toString n
  | .str s => s
  | .nan => "NaN"
  | .undef => "undefined"
  | .arr l => String.intercalate "," (jsToStrList l)
/-- Element-wise string conversion inside an array join; `undefined`
elements print as the empty string there. -/
def jsToStrList : List JSVal → List String
  | [] => []
  | .undef :: rest => "" :: jsToStrList rest
  | v :: rest => jsToStr v :: jsToStrList rest
end

/-- Whether JavaScript `ToPrimitive` yields a string for this value
(strings themselves and arrays, whose primitive is their join). -/
def isStringish : JSVal → Bool
  | .str _ => true
  | .arr _ => true
  | _ => false

/-- JavaScript `ToNumber`, with `none` standing for `NaN`.  String
conversion (the builtin `Number(string)` behaviour, also applied to an
array through its string form) is delegated to the environment
parameter `nm`. -/
def jsToNum (nm : String → Option Int) : JSVal → Option Int
  | .num n => some n
  | .str s => nm s
  | .arr l => nm (jsToStr (.arr l))
  | .nan => none
  | .undef => none

/-- JavaScript `+`: string concatenation when either primitive is a
string, numeric addition otherwise (`NaN` propagating). -/
def jsAdd (nm : String → Option Int) (a b : JSVal) : JSVal :=
  if isStringish a || isStringish b then .str (jsToStr a ++ jsToStr b)
  else
    match jsToNum nm a, jsToNum nm b with
    | some x, some y => .num (x + y)
    | _, _ => .nan

/-- JavaScript `-`: numeric subtraction with `NaN` propagation. -/
def jsSub (nm : String → Option Int) (a b : JSVal) : JSVal :=
  match jsToNum nm a, jsToNum nm b with
  | some x, some y => .num (x - y)
  | _, _ => .nan

/-- JavaScript `*`: numeric multiplication with `NaN` propagation. -/
def jsMul (nm : String → Option Int) (a b : JSVal) : JSVal :=
  match jsToNum nm a, jsToNum nm b with
  | some x, some y => .num (x * y)
  | _, _ => .nan

/-- JavaScript `<`: lexicographic when both primitives are strings,
numeric otherwise, with any `NaN` making the comparison false. -/
def jsLess (nm : String → Option Int) (a b : JSVal) : Bool :=
  if isStringish a && isStringish b then decide (jsToStr a < jsToStr b)
  else
    match jsToNum nm a, jsToNum nm b with
    | some x, some y => decide (x < y)
    | _, _ => false

/-- JavaScript `===`.  Values of different types are never equal and
`NaN` equals nothing.  Two distinct array objects compare by reference
in JavaScript; the model returns `false` for arrays (reachable bubble
contents never put an array value into a strict comparison with
itself). -/
def jsStrictEq : JSVal → JSVal → Bool
  | .num x, .num y => x == y
  | .str s, .str t => s == t
  | .undef, .undef => true
  | _, _ => false

/-- The `Bubble` class: a wrapper around a backing array of values. -/
structure Bubble where
  backing : List JSVal
deriving Repr

/-- `Bubble.value()`: a copy of the backing array when it holds more
than one value, `0` when it is empty, the single value otherwise. -/
def Bubble.value (b : Bubble) : JSVal :=
  if 1 < b.backing.length then .arr b.backing
  else
    match b.backing with
    | [] => .num 0
    | v :: _ => v

/-- `Bubble.isDouble()`: more than one value in the backing. -/
def Bubble.isDouble (b : Bubble) : Bool := 1 < b.backing.length

/-- `Bubble.size()`: `0` for a backing of length 1, the length
otherwise. -/
def Bubble.size (b : Bubble) : Nat :=
  if b.backing.length == 1 then 0 else b.backing.length

/-- `Bubble.merge(other)`: `unshift(...other.value())` with a fallback
to `unshift(other.value())` when the value is not iterable.  Arrays
spread to their elements, strings are iterable and spread to their
characters, any other value is prepended whole. -/
def Bubble.mergeB (self other : Bubble) : Bubble :=
  match other.value with
  | .arr l => ⟨l ++ self.backing⟩
  | .str s => ⟨(s.toList.map (fun c => JSVal.str (String.singleton c))) ++ self.backing⟩
  | v => ⟨v :: self.backing⟩

/-- The scalar integer content of a bubble, when it has one: `some n`
exactly when `value()` is the number `n` (so in particular the bubble
is not a double bubble). -/
def Bubble.numValue (b : Bubble) : Option Int :=
  match b.value with
  | .num n => some n
  | _ => none

/-- `OPCODES.get`: `(token >>> 0) % 32`.  `>>> 0` is `ToUint32`,
i.e. reduction modulo `2 ^ 32`. -/
def opGet (token : Int) : Nat :=
  ((token.emod (2 ^ 32)).emod 32).toNat

/-- `OPCODES.parameterized` applied to a raw (uncoerced) token, exactly
as the interpreter's label pre-scan calls it: a `switch` on the exact
signed value, so e.g. the raw token `48` (opcode `LBL` after `get`) is
not recognized here. -/
def rawParameterized (t : Int) : Bool :=
  t == 5 || t == 6 || t == 9 || t == 16 || t == 17 ||
  t == 18 || t == 19 || t == 20 || t == 21

/-- `OPCODES.parameterized` applied to an already-coerced opcode, as
the parser does (it switches on `OPCODES.get(value)`). -/
def opParameterized (c : Nat) : Bool :=
  c == 5 || c == 6 || c == 9 || c == 16 || c == 17 ||
  c == 18 || c == 19 || c == 20 || c == 21

/-- `Comparator.equal`: a single and a double bubble are always
different; double bubbles compare size then elementwise with `===`;
single bubbles compare their values with `===`. -/
def Comparator.equal (b1 b2 : Bubble) : Bool :=
  let d1 := b1.isDouble
  let d2 := b2.isDouble
  if (d1 && !d2) || (!d1 && d2) then false
  else if d1 && d2 then
    if b1.size != b2.size then false
    else
      (List.range b1.size).all fun i =>
        jsStrictEq (b1.backing.getD i .undef) (b2.backing.getD i .undef)
  else jsStrictEq b1.value b2.value

/-- `Comparator.less`: `b1.value() < b2.value()` when both bubbles are
single, `false` otherwise. -/
def Comparator.less (nm : String → Option Int) (b1 b2 : Bubble) : Bool :=
  if !b1.isDouble && !b2.isDouble then jsLess nm b1.value b2.value
  else false

/-- `Comparator.greater`: the source tests `b1.value() < b2.value()`
here as well — the same direction as `less`. -/
def Comparator.greater (nm : String → Option Int) (b1 b2 : Bubble) : Bool :=
  if !b1.isDouble && !b2.isDouble then jsLess nm b1.value b2.value
  else false

/-- `Comparator.zero`: `0 === b1.value()` for a single bubble, `false`
for a double bubble. -/
def Comparator.zero (b1 : Bubble) : Bool :=
  if !b1.isDouble then jsStrictEq (.num 0) b1.value
  else false

/-- `Arith.add`.  Note the mixed branches: `new Bubble(b1v.map(...))`
passes the mapped array as a *single* constructor argument (no spread),
so the resulting bubble's backing is `[array]` — length 1.  Only the
double/double branch spreads (`new Bubble(...values)`).  The fallback
arms of the inner matches are unreachable: a double bubble's `value()`
is always an array. -/
def Arith.add (nm : String → Option Int) (b1 b2 : Bubble) : Bubble :=
  let d1 := b1.isDouble
  let d2 := b2.isDouble
  let b1v := b1.value
  let b2v := b2.value
  if !d1 && !d2 then ⟨[jsAdd nm b1v b2v]⟩
  else if d1 && !d2 then
    match b1v with
    | .arr l => ⟨[.arr (l.map (fun e => jsAdd nm e b2v))]⟩
    | v => ⟨[v]⟩
  else if !d1 && d2 then
    match b2v with
    | .arr l => ⟨[.arr (l.map (fun e => jsAdd nm e b1v))]⟩
    | v => ⟨[v]⟩
  else
    let len := min b1.size b2.size
    ⟨(List.range len).map fun i =>
      jsAdd nm (b1.backing.getD i .undef) (b2.backing.getD i .undef)⟩

/-- `Arith.sub`; same structure (and same non-spread construction in
the mixed branches) as `Arith.add`. -/
def Arith.sub (nm : String → Option Int) (b1 b2 : Bubble) : Bubble :=
  let d1 := b1.isDouble
  let d2 := b2.isDouble
  let b1v := b1.value
  let b2v := b2.value
  if !d1 && !d2 then ⟨[jsSub nm b1v b2v]⟩
  else if d1 && !d2 then
    match b1v with
    | .arr l => ⟨[.arr (l.map (fun e => jsSub nm e b2v))]⟩
    | v => ⟨[v]⟩
  else if !d1 && d2 then
    match b2v with
    | .arr l => ⟨[.arr (l.map (fun e => jsSub nm e b1v))]⟩
    | v => ⟨[v]⟩
  else
    let len := min b1.size b2.size
    ⟨(List.range len).map fun i =>
      jsSub nm (b1.backing.getD i .undef) (b2.backing.getD i .undef)⟩

/-- `Arith.mul`; same structure as `Arith.add`. -/
def Arith.mul (nm : String → Option Int) (b1 b2 : Bubble) : Bubble :=
  let d1 := b1.isDouble
  let d2 := b2.isDouble
  let b1v := b1.value
  let b2v := b2.value
  if !d1 && !d2 then ⟨[jsMul nm b1v b2v]⟩
  else if d1 && !d2 then
    match b1v with
    | .arr l => ⟨[.arr (l.map (fun e => jsMul nm e b2v))]⟩
    | v => ⟨[v]⟩
  else if !d1 && d2 then
    match b2v with
    | .arr l => ⟨[.arr (l.map (fun e => jsMul nm e b1v))]⟩
    | v => ⟨[v]⟩
  else
    let len := min b1.size b2.size
    ⟨(List.range len).map fun i =>
      jsMul nm (b1.backing.getD i .undef) (b2.backing.getD i .undef)⟩

/-- The quotient computed inside `Arith.bubblediv`: the exact quotient
`v1 / v2`, then `Math.ceil` when negative and `Math.floor` otherwise —
truncation toward zero. -/
def bubbledivQuot (v1 v2 : Int) : Int :=
  let q : Rat := (v1 : Rat) / (v2 : Rat)
  if q < 0 then Int.ceil q else Int.floor q

/-- The body of `Arith.bubblediv` (remainder first, then quotient).
JavaScript `%` keeps the sign of the dividend, which is `Int.tmod` for
a nonzero divisor.  This function is in fact unreachable in the
program: every call site of `Arith.bubblediv` is faulty (see
`Arith.div`), so it records the source's intended arithmetic. -/
def bubblediv (v1 v2 : Int) : List Int :=
  [v1.tmod v2, bubbledivQuot v1 v2]

/-- `Arith.div` as it actually executes.  The single/single branch
evaluates the undefined identifiers `bv1`, `bv2` (the locals are named
`b1v`, `b2v`), which throws a `ReferenceError` before anything else.
The three vector branches call `Arith.bubblediv(e, b2v)` with only two
arguments, so inside `bubblediv` the parameter `trace` is bound to the
numeric element `e` and `trace.push(...)` throws a `TypeError` on the
first mapped element (a double bubble is nonempty; no reachable double
bubble contains an array element, for which `push` would exist). -/
def Arith.div (b1 b2 : Bubble) : Except JsErr Bubble :=
  if !b1.isDouble && !b2.isDouble then .error .referenceError
  else .error .typeError

/-- `Abysser.merge` as it actually executes.  With two single bubbles
it assigns `bubble = new Bubble([v2, v1])` where `bubble` is declared
`const`, which throws a `TypeError` ("assignment to constant
variable"); in every other case it evaluates `input[1]` where no
binding `input` exists, which throws a `ReferenceError`. -/
def Abysser.merge (b1 b2 : Bubble) : Except JsErr Bubble :=
  if !b1.isDouble && !b2.isDouble then .error .typeError
  else .error .referenceError

/-- `Abysser.pop`: `none` (JavaScript `null`, nothing re-pushed) for a
single bubble; for a double bubble, one fresh single bubble per value,
in order.  The fallback arm is unreachable (a double bubble's value is
an array). -/
def Abysser.popSplit (input : Bubble) : Option (List Bubble) :=
  if !input.isDouble then none
  else
    match input.value with
    | .arr l => some (l.map fun v => ⟨[v]⟩)
    | v => some [⟨[v]⟩]

/-- The external collaborators of the interpreter: the input reader
(`stdin.read`, threaded through a state `σ`), the output writer
(`stdout.write`), and the JavaScript string-to-number builtins
`parseInt` and `Number` (with `none` standing for `NaN`). -/
structure JsEnv (σ : Type) where
  readLine : σ → String × σ
  writeOut : σ → String → σ
  parseIntM : String → Option Int
  numberM : String → Option Int

/-- The `InOut` alphabet string (64 characters). -/
def ALPHABET : String :=
  "AWawJELYHOSIUMjelyhosiumPCNTpcntBDFGRbdfgr0123456789 .,!\x27()~_/;\n"

/-- `InOut.letter`: strings pass through; a number indexes the
alphabet after the range check `v < 0 || v > ALPHABET.length` (note
`>`: index 64 passes the check and reads `undefined`, which downstream
string contexts render as empty — modelled as the empty string).  For
the remaining value shapes (unreachable for program-generated bubbles)
the JavaScript comparisons are content-dependent; the model raises the
range error. -/
def InOut.letter : JSVal → Except JsErr String
  | .str s => .ok s
  | .num n =>
      if n < 0 || 64 < n then .error .rangeError
      else if n == 64 then .ok ""
      else .ok (String.singleton (ALPHABET.toList.getD n.toNat ' '))
  | _ => .error .rangeError

/-- The `map`-then-`join` over a double bubble's values in
`InOut.write`: letters left to right, stopping at the first error. -/
def InOut.mapLetters : List JSVal → Except JsErr (List String)
  | [] => .ok []
  | v :: rest =>
      match InOut.letter v with
      | .error e => .error e
      | .ok s => (InOut.mapLetters rest).map (fun l => s :: l)

/-- `InOut.write`: a double bubble prints the concatenation of its
values' letters, a single bubble prints its value's letter.  The
fallback arm is unreachable (a double bubble's value is an array). -/
def InOut.write (env : JsEnv σ) (s : σ) (b : Bubble) : Except JsErr σ :=
  if b.isDouble then
    match b.value with
    | .arr l =>
        match InOut.mapLetters l with
        | .error e => .error e
        | .ok outs => .ok (env.writeOut s (String.join outs))
    | _ => .error .rangeError
  else
    match InOut.letter b.value with
    | .error e => .error e
    | .ok out => .ok (env.writeOut s out)

/-- `InOut.read`: read a line; an empty line becomes the single
character `'0'`; otherwise every character must belong to the alphabet
(else a `RangeError`) and the bubble holds the characters in order.
The input state is advanced even when the validation fails. -/
def InOut.read (env : JsEnv σ) (s : σ) : Except JsErr Bubble × σ :=
  let (line, s') := env.readLine s
  if line.length == 0 then (.ok ⟨[.str "0"]⟩, s')
  else if line.toList.all (fun c => ALPHABET.toList.contains c) then
    (.ok ⟨line.toList.map (fun c => .str (String.singleton c))⟩, s')
  else (.error .rangeError, s')

/-- `InOut.readRaw`: read a line; an empty line becomes the number 0;
otherwise `parseInt`, with `NaN` raising a `TypeError`. -/
def InOut.readRaw (env : JsEnv σ) (s : σ) : Except JsErr Bubble × σ :=
  let (line, s') := env.readLine s
  if line.length == 0 then (.ok ⟨[.num 0]⟩, s')
  else
    match env.parseIntM line with
    | none => (.error .typeError, s')
    | some v => (.ok ⟨[.num v]⟩, s')

/-- The mutable interpreter state outside the operation counter: the
abyss (a JavaScript array of bubbles — `none` is an `undefined` slot,
which only `SBM` on an empty abyss can create), the token cursor, and
the I/O state.  The abyss top is the END of the list, matching the
source's `push`/`pop`. -/
structure MState (σ : Type) where
  abyss : List (Option Bubble)
  cursor : Nat
  io : σ

/-- `abyss.pop()`: the popped value (`none` both for an empty abyss,
where `pop` yields `undefined`, and for an `undefined` slot) and the
remaining abyss. -/
def popA (ab : List (Option Bubble)) : Option Bubble × List (Option Bubble) :=
  (ab.getLast?.join, ab.dropLast)

/-- `Array.prototype.splice(start, 0, v)` insertion at the clamped
start index: `splice(len - input, 0, v)` as `Abysser.submerge` calls
it (on the abyss after the pop, of length `len`). -/
def submergeIdx (len : Nat) (inp : Int) : Nat :=
  let rel : Int := (len : Int) - inp
  if rel < 0 then ((len : Int) + rel).toNat else min rel.toNat len

/-- Insert a value at an index of a list (the clamped `splice`). -/
def insertAt (i : Nat) (a : α) (l : List α) : List α :=
  l.take i ++ a :: l.drop i

/-- `Abysser.surround`'s loop: pop `n` times, merging each popped
bubble into the accumulator (prepending its values).  Popping an
`undefined` slot makes `merge` call `undefined.value()`, a
`TypeError`.  Returns the result (or error) with the abyss as left by
the performed pops. -/
def Abysser.surroundGo : Nat → Bubble → List (Option Bubble) →
    Except JsErr Bubble × List (Option Bubble)
  | 0, acc, ab => (.ok acc, ab)
  | n + 1, acc, ab =>
      match popA ab with
      | (none, rest) => (.error .typeError, rest)
      | (some b, rest) => Abysser.surroundGo n (acc.mergeB b) rest

/-- One dispatch outcome: the new machine state, or a thrown error
together with the machine state at the throw point. -/
inductive DStep (σ : Type) where
  | ok (m : MState σ)
  | err (e : JsErr) (m : MState σ)

/-- The interpreter's `switch` on `OPCODES.get(tokens[cursor])`: one
instruction, with the result push (`abyss.push(...result)`) folded
into each branch.  Cursor updates are the per-branch ones only; the
loop's final `cursor + 1` is applied by `loopIterate`. -/
def dispatch (env : JsEnv σ) (tokens : List Int) (labels : List (Int × Nat))
    (m : MState σ) : DStep σ :=
  let t := tokens.getD m.cursor 0
  let code := opGet t
  if code = 0 then
    -- NOP
    .ok m
  else if code = 1 then
    -- PRN
    if m.abyss.length == 0 then .err .opcodeError m
    else
      match popA m.abyss with
      | (none, rest) => .err .typeError { m with abyss := rest }
      | (some b, rest) =>
          match InOut.write env m.io b with
          | .error e => .err e { m with abyss := rest }
          | .ok s' => .ok { m with abyss := rest, io := s' }
  else if code = 2 then
    -- PR1
    if m.abyss.length == 0 then .err .opcodeError m
    else
      match popA m.abyss with
      | (none, rest) => .err .typeError { m with abyss := rest }
      | (some b, rest) =>
          .ok { m with abyss := rest, io := env.writeOut m.io (jsToStr b.value) }
  else if code = 3 then
    -- RED
    match InOut.read env m.io with
    | (.error e, s') => .err e { m with io := s' }
    | (.ok b, s') => .ok { m with abyss := m.abyss ++ [some b], io := s' }
  else if code = 4 then
    -- R3D
    match InOut.readRaw env m.io with
    | (.error e, s') => .err e { m with io := s' }
    | (.ok b, s') => .ok { m with abyss := m.abyss ++ [some b], io := s' }
  else if code = 5 then
    -- BLO
    match tokens[m.cursor + 1]? with
    | none => .err .opcodeError m
    | some p =>
        .ok { m with abyss := m.abyss ++ [some ⟨[.num p]⟩], cursor := m.cursor + 1 }
  else if code = 6 then
    -- SBM (no abyss-length check in the source: popping an empty
    -- abyss yields undefined, which is re-inserted as a slot)
    match tokens[m.cursor + 1]? with
    | none => .err .opcodeError m
    | some inp =>
        match popA m.abyss with
        | (v, rest) =>
            let ab' := if inp == 0 then v :: rest
                       else insertAt (submergeIdx rest.length inp) v rest
            .ok { m with abyss := ab', cursor := m.cursor + 1 }
  else if code = 7 then
    -- POP
    if m.abyss.length == 0 then .err .opcodeError m
    else
      match popA m.abyss with
      | (none, rest) => .err .typeError { m with abyss := rest }
      | (some b, rest) =>
          match Abysser.popSplit b with
          | none => .ok { m with abyss := rest }
          | some bs => .ok { m with abyss := rest ++ bs.map some }
  else if code = 8 then
    -- DPL
    if m.abyss.length == 0 then .err .opcodeError m
    else
      match popA m.abyss with
      | (none, rest) => .err .typeError { m with abyss := rest }
      | (some b, rest) => .ok { m with abyss := rest ++ [some b, some b] }
  else if code = 9 then
    -- SRN
    match tokens[m.cursor + 1]? with
    | none => .err .opcodeError m
    | some p =>
        if (m.abyss.length : Int) < p then .err .opcodeError m
        else
          match Abysser.surroundGo p.toNat ⟨[]⟩ m.abyss with
          | (.error e, ab') => .err e { m with abyss := ab' }
          | (.ok b, ab') =>
              .ok { m with abyss := ab' ++ [some b], cursor := m.cursor + 1 }
  else if code = 10 then
    -- MRG (always throws inside Abysser.merge; both pops have
    -- already happened)
    if m.abyss.length < 2 then .err .opcodeError m
    else
      match popA m.abyss with
      | (v1, rest1) =>
          match popA rest1 with
          | (v2, rest2) =>
              match v1 with
              | none => .err .typeError { m with abyss := rest2 }
              | some b1 =>
                  match v2 with
                  | none => .err .typeError { m with abyss := rest2 }
                  | some b2 =>
                      match Abysser.merge b1 b2 with
                      | .error e => .err e { m with abyss := rest2 }
                      | .ok b => .ok { m with abyss := rest2 ++ [some b] }
  else if code = 11 then
    -- 4DD
    if m.abyss.length < 2 then .err .opcodeError m
    else
      match popA m.abyss with
      | (v1, rest1) =>
          match popA rest1 with
          | (v2, rest2) =>
              match v1 with
              | none => .err .typeError { m with abyss := rest2 }
              | some b1 =>
                  match v2 with
                  | none => .err .typeError { m with abyss := rest2 }
                  | some b2 =>
                      .ok { m with abyss := rest2 ++ [some (Arith.add env.numberM b1 b2)] }
  else if code = 12 then
    -- SUB
    if m.abyss.length < 2 then .err .opcodeError m
    else
      match popA m.abyss with
      | (v1, rest1) =>
          match popA rest1 with
          | (v2, rest2) =>
              match v1 with
              | none => .err .typeError { m with abyss := rest2 }
              | some b1 =>
                  match v2 with
                  | none => .err .typeError { m with abyss := rest2 }
                  | some b2 =>
                      .ok { m with abyss := rest2 ++ [some (Arith.sub env.numberM b1 b2)] }
  else if code = 13 then
    -- MUL
    if m.abyss.length < 2 then .err .opcodeError m
    else
      match popA m.abyss with
      | (v1, rest1) =>
          match popA rest1 with
          | (v2, rest2) =>
              match v1 with
              | none => .err .typeError { m with abyss := rest2 }
              | some b1 =>
                  match v2 with
                  | none => .err .typeError { m with abyss := rest2 }
                  | some b2 =>
                      .ok { m with abyss := rest2 ++ [some (Arith.mul env.numberM b1 b2)] }
  else if code = 14 then
    -- DIV (always throws inside Arith.div; both pops have already
    -- happened)
    if m.abyss.length < 2 then .err .opcodeError m
    else
      match popA m.abyss with
      | (v1, rest1) =>
          match popA rest1 with
          | (v2, rest2) =>
              match v1 with
              | none => .err .typeError { m with abyss := rest2 }
              | some b1 =>
                  match v2 with
                  | none => .err .typeError { m with abyss := rest2 }
                  | some b2 =>
                      match Arith.div b1 b2 with
                      | .error e => .err e { m with abyss := rest2 }
                      | .ok b => .ok { m with abyss := rest2 ++ [some b] }
  else if code = 15 then
    -- CNT (reads the top without popping)
    if m.abyss.length == 0 then .err .opcodeError m
    else
      match m.abyss.getLast?.join with
      | none => .err .typeError m
      | some b => .ok { m with abyss := m.abyss ++ [some ⟨[.num (b.size : Int)]⟩] }
  else if code = 16 then
    -- LBL: skip the argument (labels were registered in the pre-scan)
    .ok { m with cursor := m.cursor + 1 }
  else if code = 17 then
    -- JMP
    match tokens[m.cursor + 1]? with
    | none => .err .opcodeError m
    | some p =>
        match labels.lookup p with
        | none => .ok { m with cursor := m.cursor + 1 }
        | some idx => .ok { m with cursor := idx }
  else if code = 18 then
    -- EQL (comparison on the top two without popping)
    match tokens[m.cursor + 1]? with
    | none => .err .opcodeError m
    | some p =>
        if m.abyss.length < 2 then .err .opcodeError m
        else
          match m.abyss.getLast?.join with
          | none => .err .typeError m
          | some b1 =>
              match m.abyss.dropLast.getLast?.join with
              | none => .err .typeError m
              | some b2 =>
                  match labels.lookup p with
                  | some idx =>
                      if Comparator.equal b1 b2 then .ok { m with cursor := idx }
                      else .ok { m with cursor := m.cursor + 1 }
                  | none => .ok { m with cursor := m.cursor + 1 }
  else if code = 19 then
    -- LSS
    match tokens[m.cursor + 1]? with
    | none => .err .opcodeError m
    | some p =>
        if m.abyss.length < 2 then .err .opcodeError m
        else
          match m.abyss.getLast?.join with
          | none => .err .typeError m
          | some b1 =>
              match m.abyss.dropLast.getLast?.join with
              | none => .err .typeError m
              | some b2 =>
                  match labels.lookup p with
                  | some idx =>
                      if Comparator.less env.numberM b1 b2 then .ok { m with cursor := idx }
                      else .ok { m with cursor := m.cursor + 1 }
                  | none => .ok { m with cursor := m.cursor + 1 }
  else if code = 20 then
    -- GR8
    match tokens[m.cursor + 1]? with
    | none => .err .opcodeError m
    | some p =>
        if m.abyss.length < 2 then .err .opcodeError m
        else
          match m.abyss.getLast?.join with
          | none => .err .typeError m
          | some b1 =>
              match m.abyss.dropLast.getLast?.join with
              | none => .err .typeError m
              | some b2 =>
                  match labels.lookup p with
                  | some idx =>
                      if Comparator.greater env.numberM b1 b2 then .ok { m with cursor := idx }
                      else .ok { m with cursor := m.cursor + 1 }
                  | none => .ok { m with cursor := m.cursor + 1 }
  else if code = 21 then
    -- EQZ (comparison on the top bubble without popping)
    match tokens[m.cursor + 1]? with
    | none => .err .opcodeError m
    | some p =>
        if m.abyss.length == 0 then .err .opcodeError m
        else
          match m.abyss.getLast?.join with
          | none => .err .typeError m
          | some b1 =>
              match labels.lookup p with
              | some idx =>
                  if Comparator.zero b1 then .ok { m with cursor := idx }
                  else .ok { m with cursor := m.cursor + 1 }
              | none => .ok { m with cursor := m.cursor + 1 }
  else if code = 31 then
    -- TRM
    .ok { m with cursor := tokens.length }
  else
    .err .opcodeError m

/-- Interpreter configuration: machine state plus the
executed-operations counter. -/
structure Config (σ : Type) where
  ms : MState σ
  executed : Nat

/-- Outcome of the interpreter loop: normal exit configuration, or a
thrown error with the configuration at the throw point. -/
inductive LoopOut (σ : Type) where
  | ok (c : Config σ)
  | err (e : JsErr) (c : Config σ)

/-- The abyss carried by a loop outcome (it is the caller's array, so
it survives a thrown error in the state it had at the throw). -/
def loopOutAbyss : LoopOut σ → List (Option Bubble)
  | .ok c => c.ms.abyss
  | .err _ c => c.ms.abyss

/-- The interpreter's operation budget (`oplimit`). -/
def oplimit : Nat := 10000

/-- One body of the `while` loop without the condition and limit
checks: dispatch, then the unconditional `cursor = cursor + 1` and
`executed = executed + 1`.  A throw leaves the counter alone. -/
def loopIterate (env : JsEnv σ) (tokens : List Int) (labels : List (Int × Nat))
    (c : Config σ) : LoopOut σ :=
  match dispatch env tokens labels c.ms with
  | .err e m' => .err e { ms := m', executed := c.executed }
  | .ok m' => .ok { ms := { m' with cursor := m'.cursor + 1 }, executed := c.executed + 1 }

/-- View of one full loop round: still `going`, or `ended` (normal
exit when the condition `cursor < tokens.length` fails, or a thrown
error — including the limit check `executed >= oplimit` performed at
the end of each body). -/
inductive LoopView (σ : Type) where
  | going (c : Config σ)
  | ended (r : LoopOut σ)

/-- One full loop round: condition check, body, limit check. -/
def loopStep1 (env : JsEnv σ) (tokens : List Int) (labels : List (Int × Nat))
    (c : Config σ) : LoopView σ :=
  if c.ms.cursor < tokens.length then
    match loopIterate env tokens labels c with
    | .err e c' => .ended (.err e c')
    | .ok c' => if oplimit ≤ c'.executed then .ended (.err .limitError c') else .going c'
  else .ended (.ok c)

/-- Iterate `loopStep1` at most `n` times (a step-indexed view of the
loop, used to state when exactly an error occurs). -/
def loopSteps (env : JsEnv σ) (tokens : List Int) (labels : List (Int × Nat)) :
    Nat → Config σ → LoopView σ
  | 0, c => .going c
  | n + 1, c =>
      match loopStep1 env tokens labels c with
      | .going c' => loopSteps env tokens labels n c'
      | .ended r => .ended r

/-- The full `while` loop, driven by fuel for structural recursion.
The limit check bounds the loop at `oplimit` bodies, so with any fuel
exceeding `oplimit - executed` the fuel is never exhausted; the
fuel-exhaustion arm returns the current configuration. -/
def interpLoopF (env : JsEnv σ) (tokens : List Int) (labels : List (Int × Nat)) :
    Nat → Config σ → LoopOut σ
  | 0, c => .ok c
  | fuel + 1, c =>
      match loopStep1 env tokens labels c with
      | .going c' => interpLoopF env tokens labels fuel c'
      | .ended r => r

/-- The label pre-scan: register `labels[tokens[i + 1]] = i + 1` for
every token whose coerced opcode is `LBL` (failing when its parameter
token is missing), and skip the parameter token of every token that is
parameterized *as a raw value* (`OPCODES.parameterized(tokens[i])`).
Later registrations shadow earlier ones, hence the prepend with
first-match lookup. -/
def buildLabelsGo : List Int → Nat → List (Int × Nat) →
    Except JsErr (List (Int × Nat))
  | [], _, acc => .ok acc
  | [t], _, acc =>
      -- a final lone token: an `LBL` lacks its argument and throws;
      -- any other token just ends the scan (a raw-parameterized one
      -- skips past the end, which the loop condition then rejects)
      if opGet t = 16 then .error .opcodeError else .ok acc
  | t :: p :: rest2, i, acc =>
      if opGet t = 16 then
        if rawParameterized t then buildLabelsGo rest2 (i + 2) ((p, i + 1) :: acc)
        else buildLabelsGo (p :: rest2) (i + 1) ((p, i + 1) :: acc)
      else
        if rawParameterized t then buildLabelsGo rest2 (i + 2) acc
        else buildLabelsGo (p :: rest2) (i + 1) acc

/-- The label table of a token sequence. -/
def buildLabels (tokens : List Int) : Except JsErr (List (Int × Nat)) :=
  buildLabelsGo tokens 0 []

/-- What a run of `interpreter` leaves behind: its result (return
value or thrown error), the abyss as the caller's array ends up, the
number of executed operations, and the I/O state. -/
structure RunResult (σ : Type) where
  res : Except JsErr JSVal
  abyss : List (Option Bubble)
  executed : Nat
  io : σ

/-- The `interpreter` function: label pre-scan, the dispatch loop,
then return-value extraction (`abyss.pop().value()` if non-empty, `0`
otherwise) followed by the abyss reset `abyss.splice(0, length)` —
which is only reached on the normal path; a thrown error leaves the
abyss as it was at the throw. -/
def interpRun (env : JsEnv σ) (tokens : List Int) (ab0 : List (Option Bubble))
    (s0 : σ) : RunResult σ :=
  match buildLabels tokens with
  | .error e => ⟨.error e, ab0, 0, s0⟩
  | .ok labels =>
      match interpLoopF env tokens labels (oplimit + 1) ⟨⟨ab0, 0, s0⟩, 0⟩ with
      | .err e c => ⟨.error e, c.ms.abyss, c.executed, c.ms.io⟩
      | .ok c =>
          if c.ms.abyss.length == 0 then ⟨.ok (.num 0), [], c.executed, c.ms.io⟩
          else
            match popA c.ms.abyss with
            | (none, rest) => ⟨.error .typeError, rest, c.executed, c.ms.io⟩
            | (some b, _) => ⟨.ok b.value, [], c.executed, c.ms.io⟩

/-- The whitespace class of the sanitizing regexes (the ASCII part of
JavaScript `\s`; the exotic Unicode spaces are not modelled). -/
def isWsJS (c : Char) : Bool :=
  c = ' ' || c = '\n' || c = '\t' || c = '\r' || c = '\x0b' || c = '\x0c'

/-- A character surviving `replace(/[^aw~\s]+/gi, '')`. -/
def keepChar (c : Char) : Bool :=
  c == 'a' || c == 'A' || c == 'w' || c == 'W' || c == '~' || isWsJS c

/-- `replace(/[\n\s]+/g, ' ')`: collapse every run of whitespace into
a single space.  The flag records whether the previous character was
part of a whitespace run. -/
def collapseWsGo : Bool → List Char → List Char
  | _, [] => []
  | prevWs, c :: rest =>
      if isWsJS c then
        if prevWs then collapseWsGo true rest
        else ' ' :: collapseWsGo true rest
      else c :: collapseWsGo false rest

/-- The parser's sanitizing pipeline: strip foreign characters,
collapse whitespace runs, lower-case. -/
def sanitize (input : String) : List Char :=
  (collapseWsGo false (input.toList.filter keepChar)).map Char.toLower

/-- `cleaned.search(/awa\s*/)`: index of the first occurrence of the
start marker `awa`. -/
def findAwa : List Char → Option Nat
  | [] => none
  | c :: rest =>
      if (c :: rest).take 3 = ['a', 'w', 'a'] then some 0
      else (findAwa rest).map (fun i => i + 1)

/-- The parser's bit machine state: emitted tokens, bits consumed in
the current token, the token's bit width (5 or 8), the accumulator,
and whether the current token is a parameter. -/
structure PState where
  tokens : List Int
  bits : Nat
  target : Nat
  value : Int
  parameter : Bool

/-- One bit unit at the cursor: `wa` appends a 1 bit, a space plus
`awa` appends a 0 bit, a space plus `~wa` (legal only as the first bit
of a token) seeds the accumulator with −1; anything else is a syntax
error.  Returns the new cursor and state with `bits` incremented. -/
def decodeStep (cleaned : List Char) (cursor : Nat) (st : PState) :
    Except JsErr (Nat × PState) :=
  if (cleaned.drop cursor).take 2 = ['w', 'a'] then
    .ok (cursor + 2, { st with value := st.value * 2 + 1, bits := st.bits + 1 })
  else if (cleaned.drop cursor).take 4 = [' ', 'a', 'w', 'a'] then
    .ok (cursor + 4, { st with value := st.value * 2, bits := st.bits + 1 })
  else if (cleaned.drop cursor).take 4 = [' ', '~', 'w', 'a'] && st.bits == 0 then
    .ok (cursor + 4, { st with value := -1, bits := st.bits + 1 })
  else .error .syntaxError

/-- Completing a token once `bits >= target`: append the value; after
a parameter the machine returns to 5-bit opcode mode; after an opcode
whose coerced value is parameterized the next token is an 8-bit
parameter. -/
def pushToken (st : PState) : PState :=
  let toks := st.tokens ++ [st.value]
  if st.parameter then ⟨toks, 0, 5, 0, false⟩
  else if opParameterized (opGet st.value) then ⟨toks, 0, 8, 0, true⟩
  else ⟨toks, 0, 5, 0, false⟩

/-- The parser's read loop, faithful to the source: it keeps decoding
while `cursor < cleaned.length - 1`, i.e. while at least two
characters remain after the cursor.  Driven by fuel for structural
recursion; each round advances the cursor by at least 2, so fuel
`cleaned.length + 1` is never exhausted. -/
def decodeLoop (cleaned : List Char) : Nat → Nat → PState → Except JsErr (List Int)
  | 0, _, _ => .error .syntaxError
  | fuel + 1, cursor, st =>
      if cursor < cleaned.length - 1 then
        match decodeStep cleaned cursor st with
        | .error e => .error e
        | .ok (cursor', st') =>
            if st'.target ≤ st'.bits then decodeLoop cleaned fuel cursor' (pushToken st')
            else decodeLoop cleaned fuel cursor' st'
      else .ok st.tokens

/-- The `parser` function: sanitize, find the start marker (syntax
error when absent), then decode from just past the marker. -/
def parserModel (input : String) : Except JsErr (List Int) :=
  let cleaned := sanitize input
  match findAwa cleaned with
  | none => .error .syntaxError
  | some i => decodeLoop cleaned (cleaned.length + 1) (i + 3) ⟨[], 0, 5, 0, false⟩

/-- Modelled from the spec's words for claim C9 (the loop-exit
condition only): identical to `decodeLoop` except that it "stops
decoding as soon as fewer than 4 characters remain after the cursor",
i.e. it continues only while `cursor + 4 ≤ cleaned.length`. -/
def decodeLoopSpecC9 (cleaned : List Char) : Nat → Nat → PState → Except JsErr (List Int)
  | 0, _, _ => .error .syntaxError
  | fuel + 1, cursor, st =>
      if cursor + 4 ≤ cleaned.length then
        match decodeStep cleaned cursor st with
        | .error e => .error e
        | .ok (cursor', st') =>
            if st'.target ≤ st'.bits then decodeLoopSpecC9 cleaned fuel cursor' (pushToken st')
            else decodeLoopSpecC9 cleaned fuel cursor' st'
      else .ok st.tokens

/-- The parser as claim C9 describes its stopping rule. -/
def parserSpecC9 (input : String) : Except JsErr (List Int) :=
  let cleaned := sanitize input
  match findAwa cleaned with
  | none => .error .syntaxError
  | some i => decodeLoopSpecC9 cleaned (cleaned.length + 1) (i + 3) ⟨[], 0, 5, 0, false⟩

/-- A trivial environment over the unit I/O state: the reader always
yields the empty line, output is discarded, and both numeric builtins
yield `NaN`.  Used to instantiate environment-polymorphic theorems on
programs that perform no I/O. -/
def env0 : JsEnv Unit :=
  ⟨fun s => ("", s), fun s _ => s, fun _ => none, fun _ => none⟩

/-- The self-jump program of claim C5: `LBL 0; JMP 0`. -/
def c5tokens : List Int := [16, 0, 17, 0]

/-- The label table the pre-scan produces for `c5tokens`. -/
def c5labels : List (Int × Nat) := [(0, 1)]

/-- The initial configuration of a fresh run: empty abyss, cursor 0,
no executed operations. -/
def initC (s0 : σ) : Config σ := ⟨⟨[], 0, s0⟩, 0⟩

/-- The configuration the self-jump program is in from operation 2 on:
cursor back at the `JMP` token, `e` operations executed. -/
def c5cfgE (s0 : σ) (e : Nat) : Config σ := ⟨⟨[], 2, s0⟩, e⟩

/-- A bubble with a scalar numeric content is not a double bubble. -/
theorem Bubble.numValue_isDouble_false (b : Bubble) (x : Int)
    (h : b.numValue = some x) : b.isDouble = false := by
  unfold Bubble.numValue Bubble.value at h
  unfold Bubble.isDouble
  by_cases hl : 1 < b.backing.length
  · simp [hl] at h
  · simp [hl]

/-- A bubble's `value()` is the number its `numValue` reports. -/
theorem Bubble.value_of_numValue (b : Bubble) (x : Int)
    (h : b.numValue = some x) : b.value = .num x := by
  unfold Bubble.numValue at h
  cases hv : b.value <;> rw [hv] at h <;> simp_all

/-- Claim C1 (code bug, evaluation at the failing input): executing
`4DD`/`SUB`/`MUL` on a popped vector `[1, 2]` and scalar `3` pushes a
bubble whose backing is the single value `[[op 1 3, op 2 3]]` — a
length-1 backing holding an array, because the mixed branches build
`new Bubble(mapped)` without spreading.  The pushed bubble is
classified as a scalar (`isDouble` false, `size` 0), not as a vector
of the vector operand's length as the claim states. -/
theorem c1_mixed_broadcast_eval :
    Arith.add (fun _ => none) ⟨[.num 1, .num 2]⟩ ⟨[.num 3]⟩ = ⟨[.arr [.num 4, .num 5]]⟩
    ∧ Arith.sub (fun _ => none) ⟨[.num 1, .num 2]⟩ ⟨[.num 3]⟩ =
        ⟨[.arr [.num (-2), .num (-1)]]⟩
    ∧ Arith.mul (fun _ => none) ⟨[.num 1, .num 2]⟩ ⟨[.num 3]⟩ = ⟨[.arr [.num 3, .num 6]]⟩
    ∧ loopIterate env0 [11] [] ⟨⟨[some ⟨[.num 3]⟩, some ⟨[.num 1, .num 2]⟩], 0, ()⟩, 0⟩ =
        .ok ⟨⟨[some ⟨[.arr [.num 4, .num 5]]⟩], 1, ()⟩, 1⟩
    ∧ (Bubble.mk [.arr [.num 4, .num 5]]).isDouble = false
    ∧ (Bubble.mk [.arr [.num 4, .num 5]]).size = 0 :=
  ⟨rfl, rfl, rfl, rfl, rfl, rfl⟩

/-- Claim C2 (code bug, evaluation at the failing input): the `MRG`
opcode on two scalar bubbles (top value 1, second value 2) throws a
`TypeError` (assignment to the `const` variable `bubble` inside
`Abysser.merge`) instead of pushing the vector `[2, 1]`; both operands
are already popped when the throw happens.  In fact `Abysser.merge`
throws on every input (`ReferenceError` on the undefined identifier
`input` in the non-scalar case). -/
theorem c2_merge_throws :
    Abysser.merge ⟨[.num 1]⟩ ⟨[.num 2]⟩ = .error .typeError
    ∧ loopIterate env0 [10] [] ⟨⟨[some ⟨[.num 2]⟩, some ⟨[.num 1]⟩], 0, ()⟩, 0⟩ =
        .err .typeError ⟨⟨[], 0, ()⟩, 0⟩
    ∧ (∀ b1 b2 : Bubble, ∃ e, Abysser.merge b1 b2 = .error e) :=
  ⟨rfl, rfl, by intro b1 b2; unfold Abysser.merge; split <;> exact ⟨_, rfl⟩⟩

/-- Claim C3 (code bug, evaluation at the failing input): the `DIV`
opcode on two scalar bubbles (top value 7, second value 2) throws a
`ReferenceError` (the undefined identifiers `bv1`, `bv2` in
`Arith.div`) instead of pushing `[remainder, quotient] = [1, 3]`;
`Arith.bubblediv` itself computes exactly that pair, but every call
site of it is faulty, so `Arith.div` throws on every input. -/
theorem c3_div_throws :
    Arith.div ⟨[.num 7]⟩ ⟨[.num 2]⟩ = .error .referenceError
    ∧ loopIterate env0 [14] [] ⟨⟨[some ⟨[.num 2]⟩, some ⟨[.num 7]⟩], 0, ()⟩, 0⟩ =
        .err .referenceError ⟨⟨[], 0, ()⟩, 0⟩
    ∧ bubblediv 7 2 = [1, 3]
    ∧ (∀ b1 b2 : Bubble, ∃ e, Arith.div b1 b2 = .error e) :=
  ⟨rfl, rfl, by unfold bubblediv bubbledivQuot; norm_num; decide,
   by intro b1 b2; unfold Arith.div; split <;> exact ⟨_, rfl⟩⟩

/-- Claim C4 (confirmed): `Comparator.greater` returns exactly what
`Comparator.less` returns; any comparison involving a double bubble is
false; and on two scalar bubbles with numeric values `x`, `y` both
return precisely the strict test `x < y`. -/
theorem c4_greater_equals_less (nm : String → Option Int) (b1 b2 : Bubble) :
    Comparator.greater nm b1 b2 = Comparator.less nm b1 b2
    ∧ ((b1.isDouble = true ∨ b2.isDouble = true) → Comparator.less nm b1 b2 = false)
    ∧ (∀ x y, b1.numValue = some x → b2.numValue = some y →
        Comparator.less nm b1 b2 = decide (x < y)) := by
  refine ⟨rfl, ?_, ?_⟩
  · intro h
    unfold Comparator.less
    rcases h with h | h <;> simp [h]
  · intro x y hx hy
    have d1 := Bubble.numValue_isDouble_false b1 x hx
    have d2 := Bubble.numValue_isDouble_false b2 y hy
    have v1 := Bubble.value_of_numValue b1 x hx
    have v2 := Bubble.value_of_numValue b2 y hy
    unfold Comparator.less
    simp [d1, d2, v1, v2, jsLess, isStringish, jsToNum]

/-- Witness for C4 at concrete scalars 1 and 2. -/
theorem c4_witness :
    Comparator.greater (fun _ => none) ⟨[.num 1]⟩ ⟨[.num 2]⟩ =
      Comparator.less (fun _ => none) ⟨[.num 1]⟩ ⟨[.num 2]⟩
    ∧ Comparator.less (fun _ => none) ⟨[.num 1]⟩ ⟨[.num 2]⟩ = decide ((1 : Int) < 2) :=
  ⟨(c4_greater_equals_less (fun _ => none) ⟨[.num 1]⟩ ⟨[.num 2]⟩).1,
   (c4_greater_equals_less (fun _ => none) ⟨[.num 1]⟩ ⟨[.num 2]⟩).2.2 1 2 rfl rfl⟩

/-- Claim C9 (counterexample): on the program text
`awa awa awa awa awawa` the real parser still decodes the trailing
2-character `wa` unit (completing the token 1) although only two
characters remain after the cursor, while a parser that stopped as
soon as fewer than 4 characters remain would have left the token
incomplete and produced no tokens. -/
theorem c9_counterexample :
    parserModel "awa awa awa awa awawa" = .ok [1]
    ∧ parserSpecC9 "awa awa awa awa awawa" = .ok [] :=
  ⟨rfl, rfl⟩

/-- Claim C9 (amended): the decode loop stops — returning the tokens
accumulated so far — exactly when fewer than 2 characters remain after
the cursor (`cursor < cleaned.length - 1` fails); a 2-character `wa`
unit can still be decoded when only 2 or 3 characters remain. -/
theorem c9_amended (cleaned : List Char) (fuel cursor : Nat) (st : PState)
    (h : cleaned.length - 1 ≤ cursor) :
    decodeLoop cleaned (fuel + 1) cursor st = .ok st.tokens := by
  unfold decodeLoop
  rw [if_neg (by omega)]

/-- Witness for the amended C9: with the two-character remainder
`['a', 'w']` and the cursor already at index 1 the loop stops at
once. -/
theorem c9_amended_witness :
    decodeLoop ['a', 'w'] 1 1 ⟨[], 0, 5, 0, false⟩ = .ok [] :=
  c9_amended ['a', 'w'] 0 1 ⟨[], 0, 5, 0, false⟩ (by decide)

/-- Claim C6 (counterexample): the run `BLO 3; <invalid opcode 30>`
fails with an opcode error and leaves the bubble pushed by `BLO` in
the abyss — the reset `abyss.splice(0, length)` is only on the normal
path, so a failed run does not clear the abyss. -/
theorem c6_counterexample :
    (interpRun env0 [5, 3, 30] [] ()).res = .error .opcodeError
    ∧ (interpRun env0 [5, 3, 30] [] ()).abyss = [some ⟨[.num 3]⟩]
    ∧ [some (Bubble.mk [.num 3])] ≠ ([] : List (Option Bubble)) :=
  ⟨rfl, rfl, by simp⟩

/-- Claim C6 (amended): at the end of every run that returns normally
the abyss is cleared to empty; a failed (throwing) run instead leaves
the abyss as it was at the throw point. -/
theorem c6_amended (σ : Type) (env : JsEnv σ) (tokens : List Int)
    (ab0 : List (Option Bubble)) (s0 : σ) (v : JSVal)
    (h : (interpRun env tokens ab0 s0).res = .ok v) :
    (interpRun env tokens ab0 s0).abyss = [] := by
  unfold interpRun at h ⊢
  split at h
  · simp_all
  · split at h
    · simp_all
    · split at h
      · simp_all
      · split at h <;> simp_all

/-- Witness for the amended C6: the empty program returns normally and
leaves an empty abyss. -/
theorem c6_amended_witness : (interpRun env0 [] [] ()).abyss = [] :=
  c6_amended Unit env0 [] [] () (.num 0) rfl

/-- Claim C7 (confirmed): executing `JMP` with its parameter token
present but not a registered label raises no error: the iteration
succeeds, the abyss and I/O are untouched, and the cursor moves past
the jump and its parameter (`cursor + 1` in the branch plus the loop's
`cursor + 1`) so execution continues at the next instruction. -/
theorem c7_unknown_label_falls_through (σ : Type) (env : JsEnv σ) (tokens : List Int)
    (labels : List (Int × Nat)) (ab : List (Option Bubble)) (cur : Nat) (s : σ)
    (ex : Nat) (p : Int)
    (hop : opGet (tokens.getD cur 0) = 17)
    (hparam : tokens[cur + 1]? = some p)
    (hlabel : labels.lookup p = none) :
    loopIterate env tokens labels ⟨⟨ab, cur, s⟩, ex⟩ =
      .ok ⟨⟨ab, cur + 1 + 1, s⟩, ex + 1⟩ := by
  unfold loopIterate dispatch
  rw [List.getD_eq_getElem?_getD] at hop
  simp [hop, hparam, hlabel]

/-- Witness for C7: `JMP 5` with an empty label table. -/
theorem c7_witness :
    loopIterate env0 [17, 5] [] ⟨⟨[], 0, ()⟩, 0⟩ = .ok ⟨⟨[], 0 + 1 + 1, ()⟩, 0 + 1⟩ :=
  c7_unknown_label_falls_through Unit env0 [17, 5] [] [] 0 () 0 5 rfl rfl rfl

/-- Claim C8 (confirmed): an `EQL`/`LSS`/`GR8`/`EQZ` iteration whose
parameter token is present and whose stack precondition holds (two
bubbles, one for `EQZ`) leaves the abyss exactly as it was — the
comparison reads the top one or two slots without popping — whether
the jump is taken or not, and even if the comparison throws on an
`undefined` slot. -/
theorem c8_comparisons_preserve_abyss (σ : Type) (env : JsEnv σ) (tokens : List Int)
    (labels : List (Int × Nat)) (ab : List (Option Bubble)) (cur : Nat) (s : σ)
    (ex : Nat) (p : Int) (code : Nat)
    (hcode : code = 18 ∨ code = 19 ∨ code = 20 ∨ code = 21)
    (hop : opGet (tokens.getD cur 0) = code)
    (hparam : tokens[cur + 1]? = some p)
    (hstack : (if code = 21 then 1 else 2) ≤ ab.length) :
    loopOutAbyss (loopIterate env tokens labels ⟨⟨ab, cur, s⟩, ex⟩) = ab := by
  unfold loopIterate dispatch
  rw [List.getD_eq_getElem?_getD] at hop
  rcases hcode with rfl | rfl | rfl | rfl
  · norm_num at hstack
    have hlen : ¬(ab.length < 2) := by omega
    simp [hop, hparam, hlen]
    cases hj1 : ab.getLast?.bind (fun a => a) with
    | none => simp [hj1, loopOutAbyss]
    | some b1 =>
      simp only [hj1]
      cases hj2 : ab.dropLast.getLast?.bind (fun a => a) with
      | none => simp [hj2, loopOutAbyss]
      | some b2 =>
        simp only [hj2]
        cases hl2 : List.lookup p labels with
        | none => simp [hl2, loopOutAbyss]
        | some idx =>
          simp only [hl2]
          by_cases hc : Comparator.equal b1 b2 = true <;> simp [hc, loopOutAbyss]
  · norm_num at hstack
    have hlen : ¬(ab.length < 2) := by omega
    simp [hop, hparam, hlen]
    cases hj1 : ab.getLast?.bind (fun a => a) with
    | none => simp [hj1, loopOutAbyss]
    | some b1 =>
      simp only [hj1]
      cases hj2 : ab.dropLast.getLast?.bind (fun a => a) with
      | none => simp [hj2, loopOutAbyss]
      | some b2 =>
        simp only [hj2]
        cases hl2 : List.lookup p labels with
        | none => simp [hl2, loopOutAbyss]
        | some idx =>
          simp only [hl2]
          by_cases hc : Comparator.less env.numberM b1 b2 = true <;> simp [hc, loopOutAbyss]
  · norm_num at hstack
    have hlen : ¬(ab.length < 2) := by omega
    simp [hop, hparam, hlen]
    cases hj1 : ab.getLast?.bind (fun a => a) with
    | none => simp [hj1, loopOutAbyss]
    | some b1 =>
      simp only [hj1]
      cases hj2 : ab.dropLast.getLast?.bind (fun a => a) with
      | none => simp [hj2, loopOutAbyss]
      | some b2 =>
        simp only [hj2]
        cases hl2 : List.lookup p labels with
        | none => simp [hl2, loopOutAbyss]
        | some idx =>
          simp only [hl2]
          by_cases hc : Comparator.greater env.numberM b1 b2 = true <;> simp [hc, loopOutAbyss]
  · norm_num at hstack
    have hz : (ab.length == 0) = false := by rw [beq_eq_false_iff_ne]; omega
    simp [hop, hparam, hz]
    cases hj1 : ab.getLast?.bind (fun a => a) with
    | none => simp [hj1, loopOutAbyss]
    | some b1 =>
      simp only [hj1]
      cases hl2 : List.lookup p labels with
      | none => simp [hl2, loopOutAbyss]
      | some idx =>
        simp only [hl2]
        by_cases hc : Comparator.zero b1 = true <;> simp [hc, loopOutAbyss]

/-- Witness for C8: `EQL 0` over two scalar bubbles. -/
theorem c8_witness :
    loopOutAbyss (loopIterate env0 [18, 0] []
      ⟨⟨[some ⟨[.num 1]⟩, some ⟨[.num 2]⟩], 0, ()⟩, 0⟩) =
      [some ⟨[.num 1]⟩, some ⟨[.num 2]⟩] :=
  c8_comparisons_preserve_abyss Unit env0 [18, 0] []
    [some ⟨[.num 1]⟩, some ⟨[.num 2]⟩] 0 () 0 0 18 (Or.inl rfl) rfl rfl (by decide)

/-- A loop round that is still going has executed strictly fewer than
`oplimit` operations (the limit check just passed). -/
theorem loopStep1_going_executed (σ : Type) (env : JsEnv σ) (tokens : List Int)
    (labels : List (Int × Nat)) (c c1 : Config σ)
    (h : loopStep1 env tokens labels c = .going c1) : c1.executed < oplimit := by
  unfold loopStep1 at h
  split at h
  · cases hi : loopIterate env tokens labels c with
    | err e c2 => simp only [hi] at h; exact LoopView.noConfusion h
    | ok c2 =>
        simp only [hi] at h
        split at h
        · exact LoopView.noConfusion h
        · next hguard =>
            simp only [LoopView.going.injEq] at h
            subst h
            omega
  · exact LoopView.noConfusion h

/-- A loop round that ended normally did so on the failed loop
condition, leaving the configuration untouched. -/
theorem loopStep1_ended_ok (σ : Type) (env : JsEnv σ) (tokens : List Int)
    (labels : List (Int × Nat)) (c c' : Config σ)
    (h : loopStep1 env tokens labels c = .ended (.ok c')) : c' = c := by
  unfold loopStep1 at h
  split at h
  · cases hi : loopIterate env tokens labels c with
    | err e c2 =>
        simp only [hi] at h
        exact absurd (LoopView.ended.inj h) (by simp)
    | ok c2 =>
        simp only [hi] at h
        split at h
        · exact absurd (LoopView.ended.inj h) (by simp)
        · exact LoopView.noConfusion h
  · simp only [LoopView.ended.injEq, LoopOut.ok.injEq] at h
    exact h.symm

/-- Loop invariant behind claim C10: a normal loop exit starting from
at most 9999 executed operations still has at most 9999 — every round
either errors, ends on the loop condition, or passes the limit check
with `executed < oplimit`. -/
theorem interpLoopF_ok_executed (σ : Type) (env : JsEnv σ) (tokens : List Int)
    (labels : List (Int × Nat)) :
    ∀ (fuel : Nat) (c cf : Config σ), c.executed ≤ 9999 →
      interpLoopF env tokens labels fuel c = .ok cf → cf.executed ≤ 9999 := by
  intro fuel
  induction fuel with
  | zero =>
      intro c cf hc h
      unfold interpLoopF at h
      simp only [LoopOut.ok.injEq] at h
      subst h
      exact hc
  | succ n ih =>
      intro c cf hc h
      unfold interpLoopF at h
      cases hs : loopStep1 env tokens labels c with
      | going c1 =>
          simp only [hs] at h
          have hg := loopStep1_going_executed σ env tokens labels c c1 hs
          exact ih c1 cf (by unfold oplimit at hg; omega) h
      | ended r =>
          simp only [hs] at h
          subst h
          have hec := loopStep1_ended_ok σ env tokens labels c cf hs
          subst hec
          exact hc

/-- The label pre-scan of an all-`NOP` program registers nothing. -/
theorem buildLabelsGo_replicate_zero :
    ∀ (n i : Nat) (acc : List (Int × Nat)),
      buildLabelsGo (List.replicate n 0) i acc = .ok acc := by
  intro n
  induction n with
  | zero => intro i acc; rfl
  | succ m ih =>
      intro i acc
      cases m with
      | zero => rfl
      | succ k =>
          show buildLabelsGo ((0 : Int) :: (0 : Int) :: List.replicate k 0) i acc = .ok acc
          unfold buildLabelsGo
          norm_num [opGet, rawParameterized]
          exact ih (i + 1) acc

/-- Reading any index of an all-zero token list yields 0. -/
theorem getD_replicate_zero (n k : Nat) :
    (List.replicate n (0 : Int)).getD k 0 = 0 := by
  simp only [List.getD_eq_getElem?_getD, List.getElem?_replicate]
  split <;> rfl

/-- Dispatching a `NOP` leaves the machine state unchanged. -/
theorem nop_dispatch (σ : Type) (env : JsEnv σ) (tokens : List Int) (s0 : σ) (k : Nat)
    (h0 : opGet (tokens.getD k 0) = 0) :
    dispatch env tokens [] ⟨[], k, s0⟩ = .ok ⟨[], k, s0⟩ := by
  unfold dispatch
  rw [List.getD_eq_getElem?_getD] at h0
  simp [h0]

/-- One loop round of an all-`NOP` program: cursor and counter move
in lockstep and the round errors exactly when the counter reaches the
budget. -/
theorem nop_step (σ : Type) (env : JsEnv σ) (tokens : List Int) (s0 : σ) (k : Nat)
    (h0 : opGet (tokens.getD k 0) = 0) (hk : k < tokens.length) :
    loopStep1 env tokens [] ⟨⟨[], k, s0⟩, k⟩ =
      if oplimit ≤ k + 1 then .ended (.err .limitError ⟨⟨[], k + 1, s0⟩, k + 1⟩)
      else .going ⟨⟨[], k + 1, s0⟩, k + 1⟩ := by
  unfold loopStep1 loopIterate
  simp only [nop_dispatch σ env tokens s0 k h0]
  rw [if_pos hk]

/-- Every token of the all-`NOP` program decodes to opcode 0. -/
theorem replicate_nop_opGet (k : Nat) :
    opGet ((List.replicate oplimit 0).getD k 0) = 0 := by
  rw [getD_replicate_zero]
  rfl

/-- Running an all-`NOP` program of exactly `oplimit` tokens from any
reached position ends in the limit error with `oplimit` operations
executed: the budget check fires after the 10000th operation and
before the loop condition (cursor = 10000) would be re-tested. -/
theorem nop_loop_err (σ : Type) (env : JsEnv σ) (tokens : List Int) (s0 : σ)
    (hz : ∀ k, opGet (tokens.getD k 0) = 0) (hlen : tokens.length = oplimit) :
    ∀ (fuel k : Nat), k < oplimit → oplimit - k ≤ fuel →
      interpLoopF env tokens [] fuel ⟨⟨[], k, s0⟩, k⟩ =
        .err .limitError ⟨⟨[], oplimit, s0⟩, oplimit⟩ := by
  intro fuel
  induction fuel with
  | zero => intro k hk hf; omega
  | succ n ih =>
      intro k hk hf
      unfold interpLoopF
      rw [nop_step σ env tokens s0 k (hz k) (by rw [hlen]; exact hk)]
      by_cases hlim : oplimit ≤ k + 1
      · rw [if_pos hlim]
        have hke : k + 1 = oplimit := by omega
        rw [hke]
      · rw [if_neg hlim]
        exact ih (k + 1) (by omega) (by omega)

/-- `interpRun` on a loop that throws propagates the error, the abyss
at the throw point, and the counter. -/
theorem interpRun_err (σ : Type) (env : JsEnv σ) (tokens : List Int)
    (ab0 : List (Option Bubble)) (s0 : σ) (labels : List (Int × Nat))
    (e : JsErr) (c : Config σ)
    (hb : buildLabels tokens = .ok labels)
    (hl : interpLoopF env tokens labels (oplimit + 1) ⟨⟨ab0, 0, s0⟩, 0⟩ = .err e c) :
    interpRun env tokens ab0 s0 = ⟨.error e, c.ms.abyss, c.executed, c.ms.io⟩ := by
  unfold interpRun
  simp only [hb, hl]

/-- Claim C10 (confirmed): every run that returns normally has
executed at most 9999 operations, whatever the tokens, initial abyss
and environment; and a program of exactly 10000 `NOP` tokens, whose
natural termination would occur on its 10000th executed operation,
instead fails with the limit error, because the budget check runs
after each operation and before the loop condition is re-tested. -/
theorem c10_budget (σ : Type) (env : JsEnv σ) (tokens : List Int)
    (ab0 : List (Option Bubble)) (s0 : σ) :
    (∀ v, (interpRun env tokens ab0 s0).res = .ok v →
        (interpRun env tokens ab0 s0).executed ≤ 9999)
    ∧ (interpRun env (List.replicate oplimit 0) [] s0).res = .error .limitError := by
  constructor
  · intro v h
    unfold interpRun at h ⊢
    split at h
    next e heq => simp at h
    next labels heq =>
      split at h
      next e c heq2 => simp at h
      next c heq2 =>
        have hex : c.executed ≤ 9999 :=
          interpLoopF_ok_executed σ env tokens labels (oplimit + 1)
            ⟨⟨ab0, 0, s0⟩, 0⟩ c (Nat.zero_le 9999) heq2
        split
        · exact hex
        · split <;> exact hex
  · have hbl : buildLabels (List.replicate oplimit 0) = .ok [] :=
      buildLabelsGo_replicate_zero oplimit 0 []
    have hrun := nop_loop_err σ env (List.replicate oplimit 0) s0 replicate_nop_opGet
      (List.length_replicate oplimit 0) (oplimit + 1) 0 (by decide) (by omega)
    rw [interpRun_err σ env (List.replicate oplimit 0) [] s0 [] .limitError
      ⟨⟨[], oplimit, s0⟩, oplimit⟩ hbl hrun]

/-- Dispatching the `JMP 0` of the self-jump program sets the cursor
to the label target (index 1, the label parameter token). -/
theorem c5_dispatch (σ : Type) (env : JsEnv σ) (s0 : σ) :
    dispatch env c5tokens c5labels ⟨[], 2, s0⟩ = .ok ⟨[], 1, s0⟩ := rfl

/-- One loop round of the self-jump program at the `JMP`: the cursor
returns to the `JMP` (target 1 plus the loop increment) and the round
errors exactly when the counter reaches the budget. -/
theorem c5_jmp_step (σ : Type) (env : JsEnv σ) (s0 : σ) (e : Nat) :
    loopStep1 env c5tokens c5labels (c5cfgE s0 e) =
      if oplimit ≤ e + 1 then .ended (.err .limitError (c5cfgE s0 (e + 1)))
      else .going (c5cfgE s0 (e + 1)) := by
  unfold loopStep1 loopIterate
  simp only [c5cfgE]
  rw [if_pos (show 2 < c5tokens.length by decide)]
  simp only [c5_dispatch σ env s0]

/-- The first operation of the self-jump program (the `LBL`) leads to
the `JMP` with one operation executed. -/
theorem c5_first_step (σ : Type) (env : JsEnv σ) (s0 : σ) :
    loopStep1 env c5tokens c5labels (initC s0) = .going (c5cfgE s0 1) := rfl

/-- Unfolding equation of `loopSteps`. -/
theorem loopSteps_succ (σ : Type) (env : JsEnv σ) (tokens : List Int)
    (labels : List (Int × Nat)) (n : Nat) (c : Config σ) :
    loopSteps env tokens labels (n + 1) c =
      match loopStep1 env tokens labels c with
      | .going c1 => loopSteps env tokens labels n c1
      | .ended r => .ended r := rfl

/-- While the budget allows it, the self-jump program keeps looping. -/
theorem c5_going (σ : Type) (env : JsEnv σ) (s0 : σ) :
    ∀ (k e : Nat), e + k ≤ 9999 →
      loopSteps env c5tokens c5labels k (c5cfgE s0 e) = .going (c5cfgE s0 (e + k)) := by
  intro k
  induction k with
  | zero => intro e h; rfl
  | succ n ih =>
      intro e h
      rw [loopSteps_succ, c5_jmp_step σ env s0 e]
      rw [if_neg (show ¬(oplimit ≤ e + 1) by unfold oplimit; omega)]
      show loopSteps env c5tokens c5labels n (c5cfgE s0 (e + 1)) =
        .going (c5cfgE s0 (e + (n + 1)))
      rw [ih (e + 1) (by omega)]
      have hadd : e + 1 + n = e + (n + 1) := by omega
      rw [hadd]

/-- Step-indexed runs compose. -/
theorem c5_steps_split (σ : Type) (env : JsEnv σ) (tokens : List Int)
    (labels : List (Int × Nat)) :
    ∀ (m n : Nat) (c c1 : Config σ),
      loopSteps env tokens labels m c = .going c1 →
      loopSteps env tokens labels (m + n) c = loopSteps env tokens labels n c1 := by
  intro m
  induction m with
  | zero =>
      intro n c c1 h
      unfold loopSteps at h
      simp only [LoopView.going.injEq] at h
      subst h
      rw [Nat.zero_add]
  | succ k ih =>
      intro n c c1 h
      have hadd : k + 1 + n = (k + n) + 1 := by omega
      rw [hadd, loopSteps_succ]
      rw [loopSteps_succ] at h
      cases hs : loopStep1 env tokens labels c with
      | going c2 =>
          simp only [hs] at h ⊢
          exact ih n c2 c1 h
      | ended r =>
          simp only [hs] at h
          exact LoopView.noConfusion h

/-- The full loop on the self-jump program ends in the limit error
with exactly `oplimit` operations executed. -/
theorem c5_loop_err (σ : Type) (env : JsEnv σ) (s0 : σ) :
    ∀ (fuel e : Nat), 1 ≤ e → e ≤ 9999 → oplimit - e ≤ fuel →
      interpLoopF env c5tokens c5labels fuel (c5cfgE s0 e) =
        .err .limitError (c5cfgE s0 oplimit) := by
  intro fuel
  induction fuel with
  | zero => intro e h1 h2 hf; unfold oplimit at hf; omega
  | succ n ih =>
      intro e h1 h2 hf
      unfold interpLoopF
      rw [c5_jmp_step σ env s0 e]
      by_cases hlim : oplimit ≤ e + 1
      · rw [if_pos hlim]
        have hke : e + 1 = oplimit := by unfold oplimit at hlim ⊢; omega
        rw [hke]
      · rw [if_neg hlim]
        exact ih (e + 1) (by omega) (by unfold oplimit at hlim; omega) (by omega)

/-- Unfolding equation of `interpLoopF`. -/
theorem interpLoopF_succ (σ : Type) (env : JsEnv σ) (tokens : List Int)
    (labels : List (Int × Nat)) (n : Nat) (c : Config σ) :
    interpLoopF env tokens labels (n + 1) c =
      match loopStep1 env tokens labels c with
      | .going c1 => interpLoopF env tokens labels n c1
      | .ended r => r := rfl

/-- The pre-scan of the self-jump program registers label 0 at index 1. -/
theorem c5_buildLabels : buildLabels c5tokens = .ok c5labels := rfl

/-- Claim C5 (confirmed): the self-jump program `LBL 0; JMP 0` fails
with the limit error at exactly the 10000th executed operation: the
full run returns the limit error, after every `k < 10000` loop rounds
the interpreter is still running (no error was raised earlier), and
the 10000th round raises the limit error with 10000 operations
executed. -/
theorem c5_limit_exact (σ : Type) (env : JsEnv σ) (s0 : σ) :
    (interpRun env c5tokens [] s0).res = .error .limitError
    ∧ (∀ k, k < oplimit → ∃ c, loopSteps env c5tokens c5labels k (initC s0) = .going c)
    ∧ loopSteps env c5tokens c5labels oplimit (initC s0) =
        .ended (.err .limitError (c5cfgE s0 oplimit)) := by
  have h1 : loopSteps env c5tokens c5labels 1 (initC s0) = .going (c5cfgE s0 1) := by
    rw [loopSteps_succ, c5_first_step σ env s0]
    rfl
  refine ⟨?_, ?_, ?_⟩
  · have hrun : interpLoopF env c5tokens c5labels (oplimit + 1) (initC s0) =
        .err .limitError (c5cfgE s0 oplimit) := by
      rw [interpLoopF_succ, c5_first_step σ env s0]
      show interpLoopF env c5tokens c5labels oplimit (c5cfgE s0 1) = _
      exact c5_loop_err σ env s0 oplimit 1 (by omega) (by omega) (by unfold oplimit; omega)
    rw [interpRun_err σ env c5tokens [] s0 c5labels .limitError (c5cfgE s0 oplimit)
      c5_buildLabels hrun]
  · intro k hk
    cases k with
    | zero => exact ⟨initC s0, rfl⟩
    | succ n =>
        refine ⟨c5cfgE s0 (n + 1), ?_⟩
        have hsplit := c5_steps_split σ env c5tokens c5labels 1 n (initC s0)
          (c5cfgE s0 1) h1
        have hgo := c5_going σ env s0 n 1 (by unfold oplimit at hk; omega)
        have hc : (n : Nat) + 1 = 1 + n := by omega
        rw [hc, hsplit, hgo]
  · have hsplit := c5_steps_split σ env c5tokens c5labels 1 9999 (initC s0)
      (c5cfgE s0 1) h1
    have hgo := c5_going σ env s0 9998 1 (by omega)
    have hsplit2 := c5_steps_split σ env c5tokens c5labels 9998 1 (c5cfgE s0 1)
      (c5cfgE s0 9999) (by rw [hgo])
    have hlast : loopSteps env c5tokens c5labels 1 (c5cfgE s0 9999) =
        .ended (.err .limitError (c5cfgE s0 oplimit)) := by
      rw [loopSteps_succ, c5_jmp_step σ env s0 9999]
      rw [if_pos (show oplimit ≤ 9999 + 1 by unfold oplimit; omega)]
      rfl
    conv_lhs => rw [show (oplimit : Nat) = 1 + 9999 by decide]
    rw [hsplit]
    conv_lhs => rw [show (9999 : Nat) = 9998 + 1 by decide]
    rw [hsplit2, hlast]

/-- Witness for C5 at the trivial environment, including one
still-going prefix. -/
theorem c5_witness :
    (interpRun env0 c5tokens [] ()).res = .error .limitError
    ∧ ∃ c, loopSteps env0 c5tokens c5labels 0 (initC ()) = .going c :=
  ⟨(c5_limit_exact Unit env0 ()).1, (c5_limit_exact Unit env0 ()).2.1 0 (by decide)⟩

/-- Witness for C10: the empty program returns normally with 0
operations executed, and the 10000-`NOP` program hits the budget. -/
theorem c10_witness :
    (interpRun env0 [] [] ()).executed ≤ 9999
    ∧ (interpRun env0 (List.replicate oplimit 0) [] ()).res = .error .limitError :=
  ⟨(c10_budget Unit env0 [] [] ()).1 (.num 0) rfl, (c10_budget Unit env0 [] [] ()).2⟩
